import Mathlib

/-!
Shallow embedding of the POETRACIKAL e-commerce backend (src/main.py and
src/schemas.py): salted-SHA-256 password storage, token sessions, and
admin-gated product CRUD over three document collections (user, product,
session).

Python strings are modelled as `List Char` (`Str`), byte strings as
`List Nat` with each entry below 256, and floats as `Rat` (the price
values are plain JSON numbers; no claim here depends on floating-point
rounding).  Randomness (`secrets.token_hex`) and generated document ids
are passed to each function as explicit parameters.  A handler maps a
request plus the database state to a result and the new state; raising
`HTTPException(s)` is the result `HResult.http s`, and an unhandled
Python exception (pydantic `ValidationError`, bson `InvalidId`) is
`HResult.server`, which FastAPI surfaces as a generic 500.

The helpers `db`, `create_document`, `get_documents` come from
`database.py`, which is part of the repository but not under src/; those
two insert helpers are modelled from the spec (section 2 "Storage
accessor", section 6) and carry a `Modelled from the spec:` note.  The
pymongo collection operations (`find_one`, `insert_one`, `update_one`,
`delete_one`) are the external collaborator and are modelled as
first-match operations on lists in insertion order.
-/

set_option maxRecDepth 1000000

/-- Python strings, as their list of unicode code points. -/
abbrev Str := List Char

/-! ### SHA-256 (hashlib.sha256, hexdigest), over byte lists -/

/-- reduce to a 32-bit word -/
def w32 (x : Nat) : Nat := x % 4294967296

/-- rotate a 32-bit word right by `n` -/
def rotr32 (n x : Nat) : Nat := w32 ((x >>> n) ||| (x <<< (32 - n)))

def bigS0 (x : Nat) : Nat := (rotr32 2 x) ^^^ (rotr32 13 x) ^^^ (rotr32 22 x)

def bigS1 (x : Nat) : Nat := (rotr32 6 x) ^^^ (rotr32 11 x) ^^^ (rotr32 25 x)

def smallS0 (x : Nat) : Nat := (rotr32 7 x) ^^^ (rotr32 18 x) ^^^ (x >>> 3)

def smallS1 (x : Nat) : Nat := (rotr32 17 x) ^^^ (rotr32 19 x) ^^^ (x >>> 10)

/-- the 64 SHA-256 round constants (FIPS 180-4, written in decimal) -/
def shaK : List Nat :=
  [1116352408, 1899447441, 3049323471, 3921009573, 961987163, 1508970993,
   2453635748, 2870763221, 3624381080, 310598401, 607225278, 1426881987,
   1925078388, 2162078206, 2614888103, 3248222580, 3835390401, 4022224774,
   264347078, 604807628, 770255983, 1249150122, 1555081692, 1996064986,
   2554220882, 2821834349, 2952996808, 3210313671, 3336571891, 3584528711,
   113926993, 338241895, 666307205, 773529912, 1294757372, 1396182291,
   1695183700, 1986661051, 2177026350, 2456956037, 2730485921, 2820302411,
   3259730800, 3345764771, 3516065817, 3600352804, 4094571909, 275423344,
   430227734, 506948616, 659060556, 883997877, 958139571, 1322822218,
   1537002063, 1747873779, 1955562222, 2024104815, 2227730452, 2361852424,
   2428436474, 2756734187, 3204031479, 3329325298]

/-- the SHA-256 initial hash value (FIPS 180-4, written in decimal) -/
def shaH0 : List Nat :=
  [1779033703, 3144134277, 1013904242, 2773480762,
   1359893119, 2600822924, 528734635, 1541459225]

/-- pad a byte message per SHA-256: append 0x80, zeros, then the 8-byte
big-endian bit length, to a multiple of 64 bytes -/
def shaPad (msg : List Nat) : List Nat :=
  let L := msg.length
  let zeros := (64 - ((L + 9) % 64)) % 64
  let bitLen := 8 * L
  msg ++ [0x80] ++ List.replicate zeros 0 ++
    [bitLen >>> 56 % 256, bitLen >>> 48 % 256, bitLen >>> 40 % 256, bitLen >>> 32 % 256,
     bitLen >>> 24 % 256, bitLen >>> 16 % 256, bitLen >>> 8 % 256, bitLen % 256]

/-- group bytes into 32-bit big-endian words -/
def bytesToWords : List Nat → List Nat
  | a :: b :: c :: d :: rest => (a * 16777216 + b * 65536 + c * 256 + d) :: bytesToWords rest
  | _ => []

/-- split a word list into blocks of 16 words; the first argument is fuel
(the list length suffices, since every step consumes at least one word) -/
def toBlocksF : Nat → List Nat → List (List Nat)
  | 0, _ => []
  | _, [] => []
  | n + 1, w :: ws => (w :: ws).take 16 :: toBlocksF n ((w :: ws).drop 16)

def toBlocks (ws : List Nat) : List (List Nat) := toBlocksF ws.length ws

/-- extend a 16-word block towards 64 words; the first argument is the
number of words still to append (48 for SHA-256) -/
def extendWords : Nat → List Nat → List Nat
  | 0, acc => acc
  | n + 1, acc =>
      let i := acc.length
      let nw := w32 (smallS1 (acc.getD (i - 2) 0) + acc.getD (i - 7) 0 +
                     smallS0 (acc.getD (i - 15) 0) + acc.getD (i - 16) 0)
      extendWords n (acc ++ [nw])

/-- the eight 32-bit working variables of the compression loop -/
structure Hash8 where
  a : Nat
  b : Nat
  c : Nat
  d : Nat
  e : Nat
  f : Nat
  g : Nat
  h : Nat
deriving DecidableEq

/-- one SHA-256 round, fed one (constant, scheduled word) pair -/
def shaRound (kw : Nat × Nat) (s : Hash8) : Hash8 :=
  let t1 := w32 (s.h + bigS1 s.e + ((s.e &&& s.f) ^^^ ((4294967295 - s.e) &&& s.g)) + kw.1 + kw.2)
  let t2 := w32 (bigS0 s.a + ((s.a &&& s.b) ^^^ (s.a &&& s.c) ^^^ (s.b &&& s.c)))
  ⟨w32 (t1 + t2), s.a, s.b, s.c, w32 (s.d + t1), s.e, s.f, s.g⟩

/-- compress one 16-word block into the running 8-word hash state -/
def compress (hs : List Nat) (block : List Nat) : List Nat :=
  let ws := extendWords 48 block
  let s0 : Hash8 := ⟨hs.getD 0 0, hs.getD 1 0, hs.getD 2 0, hs.getD 3 0,
                     hs.getD 4 0, hs.getD 5 0, hs.getD 6 0, hs.getD 7 0⟩
  let s := (List.zip shaK ws).foldl (fun s kw => shaRound kw s) s0
  [w32 (hs.getD 0 0 + s.a), w32 (hs.getD 1 0 + s.b), w32 (hs.getD 2 0 + s.c), w32 (hs.getD 3 0 + s.d),
   w32 (hs.getD 4 0 + s.e), w32 (hs.getD 5 0 + s.f), w32 (hs.getD 6 0 + s.g), w32 (hs.getD 7 0 + s.h)]

/-- SHA-256 of a byte message, as its eight 32-bit digest words -/
def sha256Words (msg : List Nat) : List Nat :=
  (toBlocks (bytesToWords (shaPad msg))).foldl compress shaH0

/-- a nibble as a lowercase hex character -/
def hexChar (n : Nat) : Char :=
  if n < 10 then Char.ofNat (48 + n) else Char.ofNat (87 + n)

/-- a 32-bit word as eight hex characters, big-endian -/
def wordToHex (w : Nat) : List Char :=
  [hexChar (w >>> 28 % 16), hexChar (w >>> 24 % 16), hexChar (w >>> 20 % 16), hexChar (w >>> 16 % 16),
   hexChar (w >>> 12 % 16), hexChar (w >>> 8 % 16), hexChar (w >>> 4 % 16), hexChar (w % 16)]

/-- hashlib hexdigest: the SHA-256 digest as 64 lowercase hex characters -/
def sha256Hex (msg : List Nat) : Str :=
  (sha256Words msg).foldr (fun w acc => wordToHex w ++ acc) []

/-- UTF-8 encoding of one code point (Python str.encode) -/
def utf8Char (c : Char) : List Nat :=
  let n := c.toNat
  if n < 128 then [n]
  else if n < 2048 then [192 ||| (n >>> 6), 128 ||| (n &&& 63)]
  else if n < 65536 then [224 ||| (n >>> 12), 128 ||| ((n >>> 6) &&& 63), 128 ||| (n &&& 63)]
  else [240 ||| (n >>> 18), 128 ||| ((n >>> 12) &&& 63), 128 ||| ((n >>> 6) &&& 63), 128 ||| (n &&& 63)]

/-- UTF-8 encoding of a string (Python str.encode) -/
def utf8Encode (s : Str) : List Nat :=
  s.foldr (fun c acc => utf8Char c ++ acc) []

/-! ### Credential module (main.py lines 25-35) -/

/-- secrets.token_hex: a byte list as lowercase hex, two characters per
byte (token_hex(8) is modelled as this applied to 8 random bytes) -/
def token_hex : List Nat → Str
  | [] => []
  | b :: bs => hexChar (b / 16) :: hexChar (b % 16) :: token_hex bs

/-- hash_password (main.py 25-27).  `gen` is the value secrets.token_hex(8)
would return on this call; Python's `salt or token_hex(8)` uses it when
the supplied salt is None or the empty string (empty strings are falsy). -/
def hash_password (password : Str) (salt : Option Str) (gen : Str) : Str :=
  let s := match salt with
    | none => gen
    | some t => if t = [] then gen else t
  s ++ '$' :: sha256Hex (utf8Encode (s ++ password))

/-- Python str.split(sep) for a one-character separator: splits at every
occurrence, keeping empty segments; the result is never the empty list -/
def pySplit (sep : Char) : Str → List Str
  | [] => [[]]
  | c :: rest =>
      if c = sep then [] :: pySplit sep rest
      else match pySplit sep rest with
        | [] => [[c]]
        | s :: ss => (c :: s) :: ss

/-- verify_password (main.py 30-35): `salt, h = stored.split("$")` succeeds
exactly when the split has two parts, any other shape raises ValueError,
which the bare `except Exception` turns into False.  `gen` is the fresh
token_hex(8) the inner hash_password call would draw if the extracted
salt were empty. -/
def verify_password (password stored : Str) (gen : Str) : Bool :=
  match pySplit '$' stored with
  | [salt, _] => hash_password password (some salt) gen == stored
  | _ => false

/-! ### Data model (schemas.py, and the stored documents) -/

/-- pydantic User (schemas.py 6-11), the validated insert payload -/
structure UserSchema where
  name : Str
  email : Str
  password_hash : Str
  role : Str
  is_active : Bool
deriving DecidableEq

/-- pydantic Product (schemas.py 13-19), the validated insert payload -/
structure ProductSchema where
  name : Str
  description : Option Str
  price : Rat
  unit : Option Str
  image : Option Str
  in_stock : Bool
deriving DecidableEq

/-- a stored user document (the insert payload plus its ObjectId, kept as
its 24-character hex string) -/
structure UserDoc where
  oid : Str
  name : Str
  email : Str
  password_hash : Str
  role : Str
  is_active : Bool
deriving DecidableEq

/-- a stored product document -/
structure ProductDoc where
  oid : Str
  name : Str
  description : Option Str
  price : Rat
  unit : Option Str
  image : Option Str
  in_stock : Bool
deriving DecidableEq

/-- a stored session document (main.py 76: user_id and token) -/
structure SessionDoc where
  user_id : Str
  token : Str
deriving DecidableEq

/-- the three collections of the document database, in insertion order -/
structure DB where
  user : List UserDoc
  product : List ProductDoc
  session : List SessionDoc
deriving DecidableEq

/-- the outcome of a fallible library call: a value, or a raised Python
exception -/
inductive Py (α : Type) where
  | ok (a : α)
  | exn
deriving DecidableEq

/-- a handler outcome: a successful body, an HTTPException with its status
code, or an unhandled exception (surfaced by FastAPI as a generic 500) -/
inductive HResult (α : Type) where
  | ok (a : α)
  | http (status : Nat)
  | server
deriving DecidableEq

/-- bson ObjectId(s) accepts exactly a 24-character hex string and raises
InvalidId otherwise -/
def isHexCh (c : Char) : Bool :=
  (48 ≤ c.toNat && c.toNat ≤ 57) || (97 ≤ c.toNat && c.toNat ≤ 102) ||
  (65 ≤ c.toNat && c.toNat ≤ 70)

def objectIdOk (s : Str) : Bool := s.length == 24 && s.all isHexCh

/-! ### Request and response shapes (main.py 39-65 and handler returns) -/

structure RegisterRequest where
  name : Str
  email : Str
  password : Str
deriving DecidableEq

structure LoginRequest where
  email : Str
  password : Str
deriving DecidableEq

structure ProductCreateRequest where
  name : Str
  price : Rat
  unit : Option Str
  description : Option Str
  image : Option Str
  in_stock : Bool
deriving DecidableEq

structure ProductUpdateRequest where
  name : Option Str
  price : Option Rat
  unit : Option Str
  description : Option Str
  image : Option Str
  in_stock : Option Bool
deriving DecidableEq

/-- the token-and-user body returned by register and login -/
structure AuthResp where
  token : Str
  id : Str
  name : Str
  email : Str
  role : Str
deriving DecidableEq

/-- the body returned by create_product: the generated id plus the payload -/
structure CreateProductResp where
  id : Str
  payload : ProductCreateRequest
deriving DecidableEq

/-! ### Storage and auth helpers (main.py 70-85, database.py modelled) -/

/-- get_user_by_email (main.py 70-71): find_one returns the first match in
insertion order -/
def get_user_by_email (email : Str) (db : DB) : Option UserDoc :=
  db.user.find? (fun u => u.email == email)

/-- Modelled from the spec: `create_document` from database.py (not under
src/), per section 2 "Storage accessor" and section 6 — insert the
validated user payload as a new document and return its generated id as a
string.  `newId` is the id the database generates. -/
def create_document_user (u : UserSchema) (newId : Str) (db : DB) : Str × DB :=
  (newId, { db with user := db.user ++ [⟨newId, u.name, u.email, u.password_hash, u.role, u.is_active⟩] })

/-- Modelled from the spec: `create_document` from database.py (not under
src/) applied to the product collection, as for `create_document_user`. -/
def create_document_product (p : ProductSchema) (newId : Str) (db : DB) : Str × DB :=
  (newId, { db with product := db.product ++ [⟨newId, p.name, p.description, p.price, p.unit, p.image, p.in_stock⟩] })

/-- create_session (main.py 74-77): insert a session document for the user
and return the token.  `newToken` is the value secrets.token_hex(24)
returns on this call. -/
def create_session (user_id : Str) (newToken : Str) (db : DB) : Str × DB :=
  (newToken, { db with session := db.session ++ [⟨user_id, newToken⟩] })

/-- get_user_from_token (main.py 80-85): look the session up by token, then
the user by the session's ObjectId; ObjectId(user_id) raises InvalidId on
a malformed stored id -/
def get_user_from_token (token : Str) (db : DB) : Py (Option UserDoc) :=
  match db.session.find? (fun s => s.token == token) with
  | none => Py.ok none
  | some sess =>
      if objectIdOk sess.user_id then Py.ok (db.user.find? (fun u => u.oid == sess.user_id))
      else Py.exn

/-- the inline `get_user_from_token(token) if token else None` of the
product handlers (main.py 147, 157, 173); an empty-string token is falsy
in Python and resolves to no user without a lookup -/
def resolve_token_opt (token : Option Str) (db : DB) : Py (Option UserDoc) :=
  match token with
  | none => Py.ok none
  | some t => if t = [] then Py.ok none else get_user_from_token t db

/-- pydantic validation of the User insert (schemas.py 7: name has
min_length 2; the email was already validated as EmailStr on the request) -/
def mkUserSchema (name email password_hash role : Str) : Py UserSchema :=
  if 2 ≤ name.length then Py.ok ⟨name, email, password_hash, role, true⟩ else Py.exn

/-- pydantic validation of the Product insert (schemas.py 16: price has
ge=0); a negative price raises ValidationError inside the handler -/
def mkProductSchema (p : ProductCreateRequest) : Py ProductSchema :=
  if 0 ≤ p.price then Py.ok ⟨p.name, p.description, p.price, p.unit, p.image, p.in_stock⟩ else Py.exn

/-! ### Handlers (main.py 114-179) -/

/-- register (main.py 114-122).  `genSalt` is the token_hex(8) drawn by
hash_password, `newUserId` the database-generated user id, `newToken` the
token_hex(24) drawn by create_session. -/
def register (p : RegisterRequest) (genSalt newUserId newToken : Str) (db : DB) :
    HResult AuthResp × DB :=
  match get_user_by_email p.email db with
  | some _ => (HResult.http 400, db)
  | none =>
      let pwd := hash_password p.password none genSalt
      match mkUserSchema p.name p.email pwd ("customer".data) with
      | Py.exn => (HResult.server, db)
      | Py.ok user =>
          let r1 := create_document_user user newUserId db
          let r2 := create_session r1.1 newToken r1.2
          (HResult.ok ⟨r2.1, r1.1, user.name, user.email, user.role⟩, r2.2)

/-- login (main.py 125-131).  `gen` is the token_hex(8) verify_password's
inner hash_password call would draw; `newToken` the token_hex(24) of
create_session. -/
def login (p : LoginRequest) (gen newToken : Str) (db : DB) : HResult AuthResp × DB :=
  match get_user_by_email p.email db with
  | none => (HResult.http 401, db)
  | some user =>
      if verify_password p.password user.password_hash gen then
        let r := create_session user.oid newToken db
        (HResult.ok ⟨r.1, user.oid, user.name, user.email, user.role⟩, r.2)
      else (HResult.http 401, db)

/-- create_product (main.py 145-152) -/
def create_product (p : ProductCreateRequest) (token : Option Str) (newId : Str) (db : DB) :
    HResult CreateProductResp × DB :=
  match resolve_token_opt token db with
  | Py.exn => (HResult.server, db)
  | Py.ok none => (HResult.http 403, db)
  | Py.ok (some u) =>
      if u.role = "admin".data then
        match mkProductSchema p with
        | Py.exn => (HResult.server, db)
        | Py.ok prod =>
            let r := create_document_product prod newId db
            (HResult.ok ⟨r.1, p⟩, r.2)
      else (HResult.http 403, db)

/-- the non-None update fields, as the Mongo update set of main.py 160;
the handler rejects the request when this is empty -/
def hasUpdate (p : ProductUpdateRequest) : Bool :=
  p.name.isSome || p.price.isSome || p.unit.isSome || p.description.isSome ||
  p.image.isSome || p.in_stock.isSome

/-- apply the non-None fields of the update to a stored document, as
update_one's dollar-set of the filtered model_dump does -/
def applySet (p : ProductUpdateRequest) (d : ProductDoc) : ProductDoc :=
  { d with
    name := p.name.getD d.name
    price := p.price.getD d.price
    unit := match p.unit with | some v => some v | none => d.unit
    description := match p.description with | some v => some v | none => d.description
    image := match p.image with | some v => some v | none => d.image
    in_stock := p.in_stock.getD d.in_stock }

/-- update_one: rewrite the first document matching the predicate -/
def updateFirst (p : α → Bool) (f : α → α) : List α → List α
  | [] => []
  | x :: xs => if p x then f x :: xs else x :: updateFirst p f xs

/-- delete_one: remove the first document matching the predicate -/
def deleteFirst (p : α → Bool) : List α → List α
  | [] => []
  | x :: xs => if p x then xs else x :: deleteFirst p xs

/-- update_product (main.py 155-168).  The order is the source's: admin
gate, empty-update gate, then ObjectId(product_id) — which raises on a
non-hex24 path string — then the update; matched_count 0 is 404.  The
final `none` branch models the crash Python's `doc.pop` would be if the
re-fetch after a matched update found nothing (the update keeps ids, so
it is never taken). -/
def update_product (product_id : Str) (p : ProductUpdateRequest) (token : Option Str) (db : DB) :
    HResult ProductDoc × DB :=
  match resolve_token_opt token db with
  | Py.exn => (HResult.server, db)
  | Py.ok none => (HResult.http 403, db)
  | Py.ok (some u) =>
      if u.role = "admin".data then
        if hasUpdate p then
          if objectIdOk product_id then
            match db.product.find? (fun d => d.oid == product_id) with
            | none => (HResult.http 404, db)
            | some _ =>
                let db1 := { db with product := updateFirst (fun d => d.oid == product_id) (applySet p) db.product }
                match db1.product.find? (fun d => d.oid == product_id) with
                | some doc => (HResult.ok doc, db1)
                | none => (HResult.server, db1)
          else (HResult.server, db)
        else (HResult.http 400, db)
      else (HResult.http 403, db)

/-- delete_product (main.py 171-179): admin gate, ObjectId conversion
(raises on malformed ids), delete_one; deleted_count 0 is 404 -/
def delete_product (product_id : Str) (token : Option Str) (db : DB) : HResult Bool × DB :=
  match resolve_token_opt token db with
  | Py.exn => (HResult.server, db)
  | Py.ok none => (HResult.http 403, db)
  | Py.ok (some u) =>
      if u.role = "admin".data then
        if objectIdOk product_id then
          if (db.product.find? (fun d => d.oid == product_id)).isSome then
            (HResult.ok true, { db with product := deleteFirst (fun d => d.oid == product_id) db.product })
          else (HResult.http 404, db)
        else (HResult.server, db)
      else (HResult.http 403, db)

/-- how many of the three collections differ between two states; one
logical write (one insert_one, update_one or delete_one) changes at most
one collection -/
def collectionsChanged (a b : DB) : Nat :=
  (if a.user = b.user then 0 else 1) + (if a.product = b.product then 0 else 1) +
  (if a.session = b.session then 0 else 1)

/-! ### Concrete sample data used by witnesses and counterexamples -/

/-- an admin user's ObjectId (24 hex characters) -/
def adminId : Str := "507f1f77bcf86cd799439011".data

/-- a stored product's ObjectId -/
def riceId : Str := "507f1f77bcf86cd799439012".data

/-- a well-formed ObjectId present in no sample collection -/
def ghostId : Str := "507f1f77bcf86cd799439099".data

/-- a stored admin user -/
def adminDoc : UserDoc :=
  ⟨adminId, "Admin".data, "admin@shop.id".data, "irrelevant".data, "admin".data, true⟩

/-- a stored product with a non-negative price -/
def riceDoc : ProductDoc := ⟨riceId, "Rice".data, none, 10, none, none, true⟩

/-- the admin's session token -/
def adminTok : Str := "aabbcc".data

/-- a database holding the admin, their session, and one product -/
def dbSample : DB := ⟨[adminDoc], [riceDoc], [⟨adminId, adminTok⟩]⟩

/-- the empty database -/
def dbEmpty : DB := ⟨[], [], []⟩

/-- an update request setting only a negative price -/
def negUpdate : ProductUpdateRequest := ⟨none, some (-1), none, none, none, none⟩

/-- an update request setting only the name -/
def nameUpdate : ProductUpdateRequest := ⟨some "Corn".data, none, none, none, none, none⟩

/-- the all-None update request -/
def emptyUpdate : ProductUpdateRequest := ⟨none, none, none, none, none, none⟩

/-- a sample create-product payload with a non-negative price -/
def ricePayload : ProductCreateRequest := ⟨"Rice".data, 10, none, none, none, true⟩

/-- a sample create-product payload with a negative price -/
def negPayload : ProductCreateRequest := ⟨"Rice".data, -1, none, none, none, true⟩

/-- a 16-character salt, as token_hex(8) returns -/
def salt16 : Str := "0123456789abcdef".data

/-- a registered customer whose stored hash was produced by hash_password -/
def aliceId : Str := "5f1f77bcf86cd79943901100".data

def alice : UserDoc :=
  ⟨aliceId, "Alice".data, "alice@shop.id".data, hash_password "pw".data none salt16,
   "customer".data, true⟩

/-- a database holding only the registered customer -/
def dbLogin : DB := ⟨[alice], [], []⟩

/-- a sample registration payload -/
def regAlice : RegisterRequest := ⟨"Alice".data, "alice@shop.id".data, "pw".data⟩

/-! ### Helper lemmas about hex digests and Python split -/

theorem hexChar_ne_dollar : ∀ n < 16, hexChar n ≠ '$' := by decide

theorem hexChar_isHex : ∀ n < 16, isHexCh (hexChar n) = true := by decide

theorem mem_wordToHex {c : Char} {w : Nat} (h : c ∈ wordToHex w) :
    ∃ n, n < 16 ∧ c = hexChar n := by
  simp [wordToHex] at h
  rcases h with h | h | h | h | h | h | h | h <;>
    exact ⟨_, Nat.mod_lt _ (by norm_num), h⟩

theorem mem_hexFold {c : Char} {ws : List Nat}
    (h : c ∈ ws.foldr (fun w acc => wordToHex w ++ acc) []) : ∃ w, c ∈ wordToHex w := by
  induction ws with
  | nil => simp at h
  | cons w ws ih =>
      simp only [List.foldr_cons, List.mem_append] at h
      rcases h with h | h
      · exact ⟨w, h⟩
      · exact ih h

theorem sha256Hex_no_dollar (msg : List Nat) : '$' ∉ sha256Hex msg := by
  intro hmem
  obtain ⟨w, hw⟩ := mem_hexFold hmem
  obtain ⟨n, hn, hc⟩ := mem_wordToHex hw
  exact hexChar_ne_dollar n hn hc.symm

theorem pySplit_ne_nil (sep : Char) (s : Str) : pySplit sep s ≠ [] := by
  induction s with
  | nil => simp [pySplit]
  | cons c rest ih =>
      simp only [pySplit]
      split
      · simp
      · cases h : pySplit sep rest with
        | nil => simp
        | cons a as => simp

theorem pySplit_no_sep (sep : Char) (s : Str) (h : sep ∉ s) : pySplit sep s = [s] := by
  induction s with
  | nil => rfl
  | cons c rest ih =>
      have hc : ¬ c = sep := fun hh => h (hh ▸ List.mem_cons_self c rest)
      have hr : sep ∉ rest := fun hh => h (List.mem_cons_of_mem c hh)
      simp only [pySplit, if_neg hc, ih hr]

theorem pySplit_append (sep : Char) (s t : Str) (hs : sep ∉ s) :
    pySplit sep (s ++ sep :: t) = s :: pySplit sep t := by
  induction s with
  | nil => simp [pySplit]
  | cons c rest ih =>
      have hc : ¬ c = sep := fun hh => hs (hh ▸ List.mem_cons_self c rest)
      have hr : sep ∉ rest := fun hh => hs (List.mem_cons_of_mem c hh)
      have ih2 : pySplit sep (rest.append (sep :: t)) = rest :: pySplit sep t := ih hr
      simp only [List.cons_append, pySplit, if_neg hc]
      rw [ih2]

theorem pySplit_sandwich (sep : Char) (s t : Str) (hs : sep ∉ s) (ht : sep ∉ t) :
    pySplit sep (s ++ sep :: t) = [s, t] := by
  rw [pySplit_append sep s t hs, pySplit_no_sep sep t ht]

theorem pySplit_length (sep : Char) (s : Str) :
    (pySplit sep s).length = s.count sep + 1 := by
  induction s with
  | nil => simp [pySplit]
  | cons c rest ih =>
      by_cases hc : c = sep
      · subst hc
        simp [pySplit, List.count_cons, ih]
      · have hbeq : ¬ (c == sep) = true := by simpa using hc
        cases h : pySplit sep rest with
        | nil => exact absurd h (pySplit_ne_nil sep rest)
        | cons a as =>
            simp only [pySplit, if_neg hc, h, List.length_cons, List.count_cons]
            rw [h] at ih
            simp only [List.length_cons] at ih
            simp [hbeq, beq_iff_eq, hc, ih]

/-- the stored form splits into its salt and its digest -/
theorem hash_password_split (p gen : Str) (hd : '$' ∉ gen) :
    pySplit '$' (hash_password p none gen) =
      [gen, sha256Hex (utf8Encode (gen ++ p))] :=
  pySplit_sandwich '$' gen _ hd (sha256Hex_no_dollar _)

/-! ### The claims -/

/-- C1: verifying a password against the stored form hash_password produced
for it succeeds, and verifying any other password against that stored form
fails whenever the two salted SHA-256 digests differ (the only reading
under which the spec sentence holds of a fixed hash function: digest
equality for distinct passwords is exactly a SHA-256 collision, which is
assumed absent as a hypothesis, never as an axiom).  `gen` is the
token_hex(8) salt hash_password drew; `gen1`, `gen2` are the draws the two
verify_password calls would make for an empty extracted salt, which a
16-character generated salt never is. -/
theorem c1_verify_roundtrip (p p2 gen gen1 gen2 : Str)
    (hne : gen ≠ []) (hd : '$' ∉ gen)
    (_hpne : p2 ≠ p)
    (hcoll : sha256Hex (utf8Encode (gen ++ p2)) ≠ sha256Hex (utf8Encode (gen ++ p))) :
    verify_password p (hash_password p none gen) gen1 = true ∧
    verify_password p2 (hash_password p none gen) gen2 = false := by
  have hsplit := hash_password_split p gen hd
  constructor
  · unfold verify_password
    rw [hsplit]
    simp [hash_password, hne]
  · unfold verify_password
    rw [hsplit]
    simp only [hash_password, if_neg hne]
    rw [beq_eq_false_iff_ne]
    intro heq
    have h2 := List.append_cancel_left heq
    injection h2 with _ h3
    exact hcoll h3

/-- C1 witness: at the salt 0123456789abcdef and the passwords pw and pw2,
whose salted digests differ. -/
theorem c1_witness :
    (salt16 ≠ [] ∧ '$' ∉ salt16 ∧ ("pw2".data : Str) ≠ "pw".data ∧
      sha256Hex (utf8Encode (salt16 ++ "pw2".data)) ≠
        sha256Hex (utf8Encode (salt16 ++ "pw".data))) ∧
    verify_password "pw".data (hash_password "pw".data none salt16) "ffff".data = true ∧
    verify_password "pw2".data (hash_password "pw".data none salt16) "ffff".data = false :=
  ⟨⟨by decide, by decide, by decide, by decide⟩,
   c1_verify_roundtrip "pw".data "pw2".data salt16 "ffff".data "ffff".data
     (by decide) (by decide) (by decide) (by decide)⟩

theorem token_hex_length (b : List Nat) : (token_hex b).length = 2 * b.length := by
  induction b with
  | nil => rfl
  | cons x xs ih => simp [token_hex, ih]; omega

theorem token_hex_hex (b : List Nat) (hb : ∀ x ∈ b, x < 256) :
    ∀ c ∈ token_hex b, isHexCh c = true := by
  induction b with
  | nil => simp [token_hex]
  | cons x xs ih =>
      intro c hc
      have hx : x < 256 := hb x (List.mem_cons_self x xs)
      have hdiv : x / 16 < 16 := Nat.div_lt_of_lt_mul (by omega)
      have hmod : x % 16 < 16 := Nat.mod_lt _ (by norm_num)
      simp only [token_hex, List.mem_cons] at hc
      rcases hc with rfl | rfl | hc
      · exact hexChar_isHex _ hdiv
      · exact hexChar_isHex _ hmod
      · exact ih (fun y hy => hb y (List.mem_cons_of_mem x hy)) c hc

/-- C2: with a supplied non-empty salt, hash_password is the formula
salt, a dollar sign, then the hex SHA-256 of salt concatenated with the
password, independently of the random draw; with the salt absent it
applies the same formula to the generated token_hex salt, which for the
8 random bytes secrets.token_hex(8) consumes is 16 hex characters. -/
theorem c2_hash_password_form (p s gen gen2 : Str) (b : List Nat)
    (hs : s ≠ []) (hb : b.length = 8) (hbv : ∀ x ∈ b, x < 256) :
    hash_password p (some s) gen = s ++ '$' :: sha256Hex (utf8Encode (s ++ p)) ∧
    hash_password p (some s) gen2 = hash_password p (some s) gen ∧
    hash_password p none (token_hex b) =
      token_hex b ++ '$' :: sha256Hex (utf8Encode (token_hex b ++ p)) ∧
    (token_hex b).length = 16 ∧
    (∀ c ∈ token_hex b, isHexCh c = true) := by
  refine ⟨by simp [hash_password, hs], by simp [hash_password, hs], rfl, ?_, token_hex_hex b hbv⟩
  rw [token_hex_length, hb]

/-- C2 witness: at the salt ab, the password pw and eight concrete bytes. -/
theorem c2_witness :
    (("ab".data : Str) ≠ [] ∧ ([1, 2, 3, 4, 5, 6, 7, 255] : List Nat).length = 8 ∧
      ∀ x ∈ ([1, 2, 3, 4, 5, 6, 7, 255] : List Nat), x < 256) ∧
    hash_password "pw".data (some "ab".data) "ffff".data =
      "ab".data ++ '$' :: sha256Hex (utf8Encode ("ab".data ++ "pw".data)) ∧
    (token_hex [1, 2, 3, 4, 5, 6, 7, 255]).length = 16 :=
  ⟨⟨by decide, by decide, by decide⟩,
   (c2_hash_password_form "pw".data "ab".data "ffff".data "ffff".data
      [1, 2, 3, 4, 5, 6, 7, 255] (by decide) (by decide) (by decide)).1,
   (c2_hash_password_form "pw".data "ab".data "ffff".data "ffff".data
      [1, 2, 3, 4, 5, 6, 7, 255] (by decide) (by decide) (by decide)).2.2.2.1⟩

/-- C3: the price invariant does not survive updates.  The Product schema
(schemas.py 16) declares price ge=0 and product creation enforces it, but
update_product (main.py 163) writes the filtered request fields straight
into the collection without re-validating them, so an admin update with a
negative price succeeds with 200 and stores a negative price: the record
written contradicts the schema's own declared constraint. -/
theorem c3_update_breaks_price_invariant :
    (∀ d ∈ dbSample.product, 0 ≤ d.price) ∧
    update_product riceId negUpdate (some adminTok) dbSample =
      (HResult.ok ⟨riceId, "Rice".data, none, -1, none, none, true⟩,
       ⟨[adminDoc], [⟨riceId, "Rice".data, none, -1, none, none, true⟩], [⟨adminId, adminTok⟩]⟩) ∧
    ¬ (∀ d ∈ (update_product riceId negUpdate (some adminTok) dbSample).2.product, 0 ≤ d.price) := by
  refine ⟨by decide, by decide, ?_⟩
  intro h
  have := h ⟨riceId, "Rice".data, none, -1, none, none, true⟩ (by decide)
  exact absurd this (by decide)

/-- C4: creating a product with no token, or with a token that resolves to
no user or to a non-admin user, is rejected with 403 before any storage
mutation, leaving the database unchanged. -/
theorem c4_create_product_forbidden (p : ProductCreateRequest) (token : Option Str)
    (newId : Str) (db : DB)
    (h : resolve_token_opt token db = Py.ok none ∨
         ∃ u, resolve_token_opt token db = Py.ok (some u) ∧ u.role ≠ "admin".data) :
    create_product p token newId db = (HResult.http 403, db) := by
  unfold create_product
  rcases h with h | ⟨u, h, hrole⟩
  · rw [h]
  · rw [h]
    simp [hrole]

/-- C4 witness: a tokenless request against the empty database. -/
theorem c4_witness :
    (resolve_token_opt none dbEmpty = Py.ok none) ∧
    create_product ricePayload none ghostId dbEmpty = (HResult.http 403, dbEmpty) :=
  ⟨by decide, c4_create_product_forbidden ricePayload none ghostId dbEmpty (Or.inl (by decide))⟩

theorem find?_eq_none_of_countP_le_one {α : Type} (p : α → Bool) (l : List α)
    (h : l.countP p ≤ 1) : (deleteFirst p l).find? p = none := by
  induction l with
  | nil => rfl
  | cons x xs ih =>
      by_cases hx : p x = true
      · have hcnt : xs.countP p = 0 := by
          rw [List.countP_cons, if_pos hx] at h
          omega
        have hnone : ∀ y ∈ xs, ¬ p y = true := List.countP_eq_zero.mp hcnt
        simp only [deleteFirst, if_pos hx]
        exact List.find?_eq_none.mpr hnone
      · have hcnt : xs.countP p ≤ 1 := by
          rw [List.countP_cons, if_neg hx] at h
          omega
        simp only [deleteFirst, if_neg hx]
        rw [List.find?_cons_of_neg _ hx]
        exact ih hcnt

theorem find?_isSome_of_countP_eq_one {α : Type} (p : α → Bool) (l : List α)
    (h : l.countP p = 1) : (l.find? p).isSome = true := by
  rw [List.find?_isSome]
  have : 0 < l.countP p := by omega
  obtain ⟨a, ha, hpa⟩ := List.countP_pos_iff.mp this
  exact ⟨a, ha, hpa⟩

/-- the token resolution of the product handlers reads only the session and
user collections, so it is unchanged by any rewrite of the products -/
theorem resolve_token_opt_product (tok : Option Str) (db : DB) (ps : List ProductDoc) :
    resolve_token_opt tok { db with product := ps } = resolve_token_opt tok db := by
  cases tok <;> rfl

/-- C5 counterexample to the claim as stated, which quantifies over
arbitrary path strings: for an admin caller, the id abc (not a 24-hex
ObjectId) makes ObjectId(product_id) raise bson InvalidId, so both update
and delete surface a generic server error, not 404; and an update of an
absent well-formed id with an all-None body returns 400, not 404, because
the empty-update gate precedes the existence check. -/
theorem c5_counterexample :
    update_product ("abc".data) nameUpdate (some adminTok) dbSample = (HResult.server, dbSample) ∧
    delete_product ("abc".data) (some adminTok) dbSample = (HResult.server, dbSample) ∧
    (HResult.server : HResult ProductDoc) ≠ HResult.http 404 ∧
    (HResult.server : HResult Bool) ≠ HResult.http 404 ∧
    update_product ghostId emptyUpdate (some adminTok) dbSample = (HResult.http 400, dbSample) ∧
    (HResult.http 400 : HResult ProductDoc) ≠ HResult.http 404 := by
  refine ⟨by decide, by decide, by decide, by decide, by decide, by decide⟩

/-- C5 amended: for an admin-authorized caller and a product id that is a
well-formed ObjectId (24 hex characters), an update with a non-empty body
and a delete of an id matching no record both return 404 and leave the
database unchanged; and when exactly one record carries the id, deleting
it twice yields 404 on the second call. -/
theorem c5_unknown_id_404 (db : DB) (pid : Str) (p : ProductUpdateRequest)
    (tok : Option Str) (u : UserDoc)
    (hauth : resolve_token_opt tok db = Py.ok (some u))
    (hadmin : u.role = "admin".data)
    (hoid : objectIdOk pid = true) :
    (db.product.find? (fun d => d.oid == pid) = none →
      (hasUpdate p = true → update_product pid p tok db = (HResult.http 404, db)) ∧
      delete_product pid tok db = (HResult.http 404, db)) ∧
    (db.product.countP (fun d => d.oid == pid) = 1 →
      delete_product pid tok (delete_product pid tok db).2 =
        (HResult.http 404, (delete_product pid tok db).2)) := by
  constructor
  · intro hfind
    constructor
    · intro hupd
      unfold update_product
      rw [hauth]
      simp [hadmin, hupd, hoid, hfind]
    · unfold delete_product
      rw [hauth]
      simp [hadmin, hoid, hfind]
  · intro hcnt
    have hsome := find?_isSome_of_countP_eq_one _ _ hcnt
    have h1 : delete_product pid tok db =
        (HResult.ok true, { db with product := deleteFirst (fun d => d.oid == pid) db.product }) := by
      unfold delete_product
      rw [hauth]
      simp [hadmin, hoid, hsome]
    rw [h1]
    have hnone := find?_eq_none_of_countP_le_one (fun d => d.oid == pid) db.product (by omega)
    unfold delete_product
    rw [resolve_token_opt_product, hauth]
    simp [hadmin, hoid, hnone]

/-- C5 witness: the absent id 507f1f77bcf86cd799439099 gives 404 on update
and delete, and the stored product deleted twice gives 404 the second
time. -/
theorem c5_witness :
    (resolve_token_opt (some adminTok) dbSample = Py.ok (some adminDoc) ∧
      adminDoc.role = "admin".data ∧ objectIdOk ghostId = true ∧
      dbSample.product.find? (fun d => d.oid == ghostId) = none ∧
      hasUpdate nameUpdate = true ∧
      dbSample.product.countP (fun d => d.oid == riceId) = 1) ∧
    update_product ghostId nameUpdate (some adminTok) dbSample = (HResult.http 404, dbSample) ∧
    delete_product ghostId (some adminTok) dbSample = (HResult.http 404, dbSample) ∧
    delete_product riceId (some adminTok) (delete_product riceId (some adminTok) dbSample).2 =
      (HResult.http 404, (delete_product riceId (some adminTok) dbSample).2) :=
  ⟨⟨by decide, by decide, by decide, by decide, by decide, by decide⟩,
   ((c5_unknown_id_404 dbSample ghostId nameUpdate (some adminTok) adminDoc
       (by decide) (by decide) (by decide)).1 (by decide)).1 (by decide),
   ((c5_unknown_id_404 dbSample ghostId nameUpdate (some adminTok) adminDoc
       (by decide) (by decide) (by decide)).1 (by decide)).2,
   (c5_unknown_id_404 dbSample riceId nameUpdate (some adminTok) adminDoc
       (by decide) (by decide) (by decide)).2 (by decide)⟩

/-- C6: an admin-authorized update whose body has no non-None field is
rejected with 400 before the collection is touched, for every target id
and database state. -/
theorem c6_empty_update_400 (pid : Str) (p : ProductUpdateRequest) (tok : Option Str)
    (db : DB) (u : UserDoc)
    (hauth : resolve_token_opt tok db = Py.ok (some u))
    (hadmin : u.role = "admin".data)
    (hempty : hasUpdate p = false) :
    update_product pid p tok db = (HResult.http 400, db) := by
  unfold update_product
  rw [hauth]
  simp [hadmin, hempty]

/-- C6 witness: the all-None update against the stored product. -/
theorem c6_witness :
    (resolve_token_opt (some adminTok) dbSample = Py.ok (some adminDoc) ∧
      adminDoc.role = "admin".data ∧ hasUpdate emptyUpdate = false) ∧
    update_product riceId emptyUpdate (some adminTok) dbSample = (HResult.http 400, dbSample) :=
  ⟨⟨by decide, by decide, by decide⟩,
   c6_empty_update_400 riceId emptyUpdate (some adminTok) dbSample adminDoc
     (by decide) (by decide) (by decide)⟩

theorem find?_append_of_none {α : Type} (p : α → Bool) (l₁ l₂ : List α)
    (h : l₁.find? p = none) : (l₁ ++ l₂).find? p = l₂.find? p := by
  induction l₁ with
  | nil => simp
  | cons x xs ih =>
      by_cases hp : p x = true
      · rw [List.find?_cons_of_pos _ hp] at h
        cases h
      · rw [List.find?_cons_of_neg _ hp] at h
        rw [List.cons_append, List.find?_cons_of_neg _ hp]
        exact ih h

/-- C7: logging in with a stored user's email and a password its stored
hash verifies returns the fresh session token, and resolving that token
against the post-login state yields the same user document.  The
hypotheses are the well-formedness the real flows guarantee: the user id
is a stringified ObjectId, it identifies this user in the collection, and
the freshly drawn 24-byte token collides with no stored session. -/
theorem c7_login_token_resolves (email pwd gen newTok : Str) (db : DB) (user : UserDoc)
    (hfind : get_user_by_email email db = some user)
    (hverify : verify_password pwd user.password_hash gen = true)
    (hoid : objectIdOk user.oid = true)
    (hfresh : ∀ s ∈ db.session, s.token ≠ newTok)
    (hid : db.user.find? (fun u2 => u2.oid == user.oid) = some user) :
    login ⟨email, pwd⟩ gen newTok db =
      (HResult.ok ⟨newTok, user.oid, user.name, user.email, user.role⟩,
       { db with session := db.session ++ [⟨user.oid, newTok⟩] }) ∧
    get_user_from_token newTok { db with session := db.session ++ [⟨user.oid, newTok⟩] } =
      Py.ok (some user) := by
  constructor
  · unfold login
    simp only []
    rw [hfind]
    simp [hverify, create_session]
  · unfold get_user_from_token
    have hnone : db.session.find? (fun s => s.token == newTok) = none :=
      List.find?_eq_none.mpr (fun s hs => by simpa using hfresh s hs)
    rw [show ({ db with session := db.session ++ [⟨user.oid, newTok⟩] } : DB).session =
          db.session ++ [⟨user.oid, newTok⟩] from rfl,
        find?_append_of_none _ _ _ hnone]
    simp [hoid, hid]

/-- C7 witness: the stored customer alice, whose hash was produced by
hash_password, logging in with the password pw. -/
theorem c7_witness :
    (get_user_by_email "alice@shop.id".data dbLogin = some alice ∧
      verify_password "pw".data alice.password_hash "ffff".data = true ∧
      objectIdOk alice.oid = true ∧
      (∀ s ∈ dbLogin.session, s.token ≠ "beef01".data) ∧
      dbLogin.user.find? (fun u2 => u2.oid == alice.oid) = some alice) ∧
    login ⟨"alice@shop.id".data, "pw".data⟩ "ffff".data "beef01".data dbLogin =
      (HResult.ok ⟨"beef01".data, alice.oid, alice.name, alice.email, alice.role⟩,
       { dbLogin with session := dbLogin.session ++ [⟨alice.oid, "beef01".data⟩] }) ∧
    get_user_from_token "beef01".data
        { dbLogin with session := dbLogin.session ++ [⟨alice.oid, "beef01".data⟩] } =
      Py.ok (some alice) :=
  ⟨⟨by decide, by decide, by decide, by decide, by decide⟩,
   (c7_login_token_resolves "alice@shop.id".data "pw".data "ffff".data "beef01".data dbLogin alice
      (by decide) (by decide) (by decide) (by decide) (by decide)).1,
   (c7_login_token_resolves "alice@shop.id".data "pw".data "ffff".data "beef01".data dbLogin alice
      (by decide) (by decide) (by decide) (by decide) (by decide)).2⟩

theorem login_user_eq (p : LoginRequest) (g t : Str) (db : DB) :
    (login p g t db).2.user = db.user := by
  unfold login
  repeat' split
  all_goals rfl

theorem login_product_eq (p : LoginRequest) (g t : Str) (db : DB) :
    (login p g t db).2.product = db.product := by
  unfold login
  repeat' split
  all_goals rfl

theorem create_product_user_eq (p : ProductCreateRequest) (tok : Option Str) (i : Str) (db : DB) :
    (create_product p tok i db).2.user = db.user := by
  unfold create_product
  repeat' split
  all_goals rfl

theorem create_product_session_eq (p : ProductCreateRequest) (tok : Option Str) (i : Str) (db : DB) :
    (create_product p tok i db).2.session = db.session := by
  unfold create_product
  repeat' split
  all_goals rfl

theorem update_product_user_eq (pid : Str) (p : ProductUpdateRequest) (tok : Option Str) (db : DB) :
    (update_product pid p tok db).2.user = db.user := by
  unfold update_product
  repeat' split
  all_goals try rfl
  all_goals dsimp only
  all_goals split
  all_goals rfl

theorem update_product_session_eq (pid : Str) (p : ProductUpdateRequest) (tok : Option Str) (db : DB) :
    (update_product pid p tok db).2.session = db.session := by
  unfold update_product
  repeat' split
  all_goals try rfl
  all_goals dsimp only
  all_goals split
  all_goals rfl

theorem delete_product_user_eq (pid : Str) (tok : Option Str) (db : DB) :
    (delete_product pid tok db).2.user = db.user := by
  unfold delete_product
  repeat' split
  all_goals rfl

theorem delete_product_session_eq (pid : Str) (tok : Option Str) (db : DB) :
    (delete_product pid tok db).2.session = db.session := by
  unfold delete_product
  repeat' split
  all_goals rfl

theorem register_product_eq (p : RegisterRequest) (g i t : Str) (db : DB) :
    (register p g i t db).2.product = db.product := by
  unfold register
  repeat' split
  all_goals try rfl
  all_goals dsimp only
  all_goals split
  all_goals rfl

theorem collectionsChanged_le_one_session (a b : DB) (hu : b.user = a.user)
    (hp : b.product = a.product) : collectionsChanged a b ≤ 1 := by
  unfold collectionsChanged
  rw [hu, hp]
  by_cases h : a.session = b.session <;> simp [h]

theorem collectionsChanged_le_one_product (a b : DB) (hu : b.user = a.user)
    (hs : b.session = a.session) : collectionsChanged a b ≤ 1 := by
  unfold collectionsChanged
  rw [hu, hs]
  by_cases h : a.product = b.product <;> simp [h]

theorem collectionsChanged_le_two (a b : DB) (hp : b.product = a.product) :
    collectionsChanged a b ≤ 2 := by
  unfold collectionsChanged
  rw [hp]
  by_cases h1 : a.user = b.user <;> by_cases h2 : a.session = b.session <;> simp [h1, h2]

/-- C8 counterexample to the claim as stated: a successful registration
performs two logical writes, a user insert followed by a session insert,
so both the user and the session collections change in one request. -/
theorem c8_counterexample :
    (register regAlice salt16 aliceId "beef01".data dbEmpty).1 =
      HResult.ok ⟨"beef01".data, aliceId, "Alice".data, "alice@shop.id".data, "customer".data⟩ ∧
    (register regAlice salt16 aliceId "beef01".data dbEmpty).2.user.length = 1 ∧
    (register regAlice salt16 aliceId "beef01".data dbEmpty).2.session.length = 1 ∧
    collectionsChanged dbEmpty (register regAlice salt16 aliceId "beef01".data dbEmpty).2 = 2 ∧
    ¬ collectionsChanged dbEmpty (register regAlice salt16 aliceId "beef01".data dbEmpty).2 ≤ 1 := by
  refine ⟨by decide, by decide, by decide, by decide, by decide⟩

/-- C8 amended: login and the three product mutations each perform at most
one logical write (at most one collection differs after the request, in
every branch, for every input and state); registration alone performs two
(its user insert and its session insert), so it, not the others, is where
a partial application could arise. -/
theorem c8_at_most_one_write (rp : RegisterRequest) (lp : LoginRequest)
    (cp : ProductCreateRequest) (up : ProductUpdateRequest) (pid : Str)
    (tok : Option Str) (g1 g2 g3 : Str) (db : DB) :
    collectionsChanged db (login lp g1 g2 db).2 ≤ 1 ∧
    collectionsChanged db (create_product cp tok g1 db).2 ≤ 1 ∧
    collectionsChanged db (update_product pid up tok db).2 ≤ 1 ∧
    collectionsChanged db (delete_product pid tok db).2 ≤ 1 ∧
    collectionsChanged db (register rp g1 g2 g3 db).2 ≤ 2 :=
  ⟨collectionsChanged_le_one_session db _ (login_user_eq lp g1 g2 db)
      (login_product_eq lp g1 g2 db),
   collectionsChanged_le_one_product db _ (create_product_user_eq cp tok g1 db)
      (create_product_session_eq cp tok g1 db),
   collectionsChanged_le_one_product db _ (update_product_user_eq pid up tok db)
      (update_product_session_eq pid up tok db),
   collectionsChanged_le_one_product db _ (delete_product_user_eq pid tok db)
      (delete_product_session_eq pid tok db),
   collectionsChanged_le_two db _ (register_product_eq rp g1 g2 g3 db)⟩

/-- C9: verify_password is a total Boolean function of its inputs (the
bare `except Exception` turns every raised error into False, which the
embedding realises by construction); a stored form whose dollar count is
not exactly one — no separator at all, or more than one — always fails,
and conversely any stored form that verifies is literally some salt, a
dollar sign, then the hex SHA-256 digest of that salt and the password. -/
theorem c9_verify_malformed_false (pw stored gen : Str) :
    (stored.count '$' ≠ 1 → verify_password pw stored gen = false) ∧
    (verify_password pw stored gen = true →
      ∃ salt, stored = salt ++ '$' :: sha256Hex (utf8Encode (salt ++ pw))) := by
  constructor
  · intro hc
    have hlen := pySplit_length '$' stored
    unfold verify_password
    rcases h : pySplit '$' stored with _ | ⟨a, _ | ⟨b, _ | ⟨c, l⟩⟩⟩
    · rfl
    · rfl
    · rw [h] at hlen
      simp at hlen
      omega
    · rfl
  · intro hv
    unfold verify_password at hv
    rcases h : pySplit '$' stored with _ | ⟨a, _ | ⟨b, _ | ⟨c, l⟩⟩⟩ <;> rw [h] at hv
    · cases hv
    · cases hv
    · have heq : hash_password pw (some a) gen = stored := eq_of_beq hv
      by_cases ha : a = []
      · subst ha
        exact ⟨gen, by rw [← heq]; simp [hash_password]⟩
      · exact ⟨a, by rw [← heq]; simp [hash_password, ha]⟩
    · cases hv

/-- C9 witness: a stored form with no separator at all fails verification. -/
theorem c9_witness :
    (("nodollar".data : Str).count '$' ≠ 1) ∧
    verify_password "pw".data "nodollar".data [] = false :=
  ⟨by decide, (c9_verify_malformed_false "pw".data "nodollar".data []).1 (by decide)⟩

/-- C10: an admin-authorized create with a negative price passes request
validation (ProductCreateRequest puts no bound on price), but building the
stored Product schema raises pydantic's ValidationError for ge=0, which no
handler catches: the request ends as a generic server error, not a 4xx,
and no record is inserted. -/
theorem c10_create_negative_price_500 (p : ProductCreateRequest) (tok : Option Str)
    (newId : Str) (db : DB) (u : UserDoc)
    (hauth : resolve_token_opt tok db = Py.ok (some u))
    (hadmin : u.role = "admin".data)
    (hneg : p.price < 0) :
    mkProductSchema p = Py.exn ∧
    create_product p tok newId db = (HResult.server, db) := by
  have hmk : mkProductSchema p = Py.exn := by
    unfold mkProductSchema
    rw [if_neg (not_le.mpr hneg)]
  refine ⟨hmk, ?_⟩
  unfold create_product
  rw [hauth]
  simp [hadmin, hmk]

/-- C10 witness: the negative-price payload sent by the stored admin. -/
theorem c10_witness :
    (resolve_token_opt (some adminTok) dbSample = Py.ok (some adminDoc) ∧
      adminDoc.role = "admin".data ∧ negPayload.price < 0) ∧
    create_product negPayload (some adminTok) ghostId dbSample = (HResult.server, dbSample) :=
  ⟨⟨by decide, by decide, by decide⟩,
   (c10_create_negative_price_500 negPayload (some adminTok) ghostId dbSample adminDoc
      (by decide) (by decide) (by decide)).2⟩
